import Mathlib

/-!
# Reconcilers of cluster-api-provider-metalstack

A shallow embedding of the two reconcilers under `src/controllers`:

* `metalstackcluster_controller.go`  (namespace `ClusterCtl`)
* `metalstackfirewall_controller.go` (namespace `FirewallCtl`)

Every external collaborator (the provisioning client, the object store, helper
functions that live outside the two files) is an explicit input: a field of an
environment record that holds what the collaborator answers.  A Go call that
returns `(resp, err)` is a pair of two optional values, a Go pointer is an
`Option`, and dereferencing `none` ends the run with `Completion.panicked`.
Every run reports the record as it is left in memory, the list of collaborator
calls in the order they were issued, and how the function completed.
-/

namespace Metalstack

/-! ## Errors -/

/-- Go error values, with the wrapping structure the controllers build. -/
inductive Error where
  /-- An error without a cause: `errors.New`, `fmt.Errorf` without `%w`, or an
  error handed over by a collaborator. -/
  | mk (msg : String)
  /-- The value of `fmt.Errorf(pre + "%w", inner)`. -/
  | errorf (pre : String) (inner : Error)
  /-- The value of `errors.Wrap(cause, msg)` of `github.com/pkg/errors`. -/
  | withMessage (cause : Error) (msg : String)
deriving DecidableEq, Repr

namespace Error

/-- The method `Error()`: the rendered message. -/
def text : Metalstack.Error → String
  | mk msg => msg
  | errorf pre inner => pre ++ inner.text
  | withMessage cause msg => msg ++ ": " ++ cause.text

/-- The method `Unwrap()`: the directly wrapped error, if any. -/
def Unwrap : Metalstack.Error → Option Metalstack.Error
  | mk _ => none
  | errorf _ inner => some inner
  | withMessage cause _ => some cause

/-- The chain `errors.Is` walks: the error itself, then what it unwraps to. -/
def chain : Metalstack.Error → List Metalstack.Error
  | mk msg => [mk msg]
  | errorf pre inner => errorf pre inner :: inner.chain
  | withMessage cause msg => withMessage cause msg :: cause.chain

/-- Whether `outer` still carries `target` somewhere in its chain
(`errors.Is(outer, target)`). -/
def carries (outer target : Metalstack.Error) : Bool :=
  decide (target ∈ outer.chain)

end Error

/-! ## Shared runtime types -/

/-- The type `ctrl.Result`; `RequeueAfter` is a `time.Duration` in nanoseconds. -/
structure Result where
  Requeue : Bool := false
  RequeueAfter : Nat := 0
deriving DecidableEq, Repr

/-- A Go call returning `(resp, err)`: both halves are nilable on their own. -/
structure GoResult (α : Type) where
  resp : Option α
  err : Option Error
deriving DecidableEq, Repr

/-- How a Go function ended: by a `return`, or by a nil-pointer panic. -/
inductive Completion (α : Type) where
  | returned (a : α)
  | panicked
deriving DecidableEq, Repr

/-! ## API types

The controllers read fields that the checked-in `metalstackcluster_types.go`
(an older API version) does not declare yet: `Spec.Firewall`,
`Status.ControlPlaneIPAllocated`, `Spec.PublicNetworkID`.  The structures below
declare the fields the controllers use, with the Go types their use forces
(`Partition` and `ProjectID` are assigned to `string` request fields).
-/

/-- The type `capi.APIEndpoint`. -/
structure APIEndpoint where
  Host : String := ""
  Port : Nat := 0
deriving DecidableEq, Repr

/-- The firewall part of a cluster spec (`metalCluster.Spec.Firewall`). -/
structure FirewallSpec where
  DefaultNetworkID : Option String := none
  Image : Option String := none
  Size : Option String := none
  SSHKeys : List String := []
  ProviderID : Option String := none
deriving DecidableEq, Repr

/-- The type `MetalStackClusterSpec`, as the controllers use it. -/
structure MetalStackClusterSpec where
  ControlPlaneEndpoint : APIEndpoint := {}
  Firewall : FirewallSpec := {}
  Partition : String := ""
  ProjectID : String := ""
  /-- Read by the firewall reconciler only. -/
  PublicNetworkID : String := ""
  PrivateNetworkID : Option String := none
deriving DecidableEq, Repr

/-- The type `MetalStackClusterStatus`, as the controllers use it. -/
structure MetalStackClusterStatus where
  Ready : Bool := false
  FirewallReady : Bool := false
  ControlPlaneIPAllocated : Bool := false
  FailureReason : Option String := none
  FailureMessage : Option String := none
deriving DecidableEq, Repr

/-- The type `MetalStackCluster`: the object metadata the controllers touch,
spec and status.  `DeletionTimestamp` is nil or a time; the zero time is `0`. -/
structure MetalStackCluster where
  Name : String := ""
  Namespace : String := ""
  Finalizers : List String := []
  DeletionTimestamp : Option Nat := none
  Spec : MetalStackClusterSpec := {}
  Status : MetalStackClusterStatus := {}
deriving DecidableEq, Repr

/-- The owner `capi.Cluster`, as far as the cluster reconciler reads it. -/
structure CapiCluster where
  Name : String := ""
  Namespace : String := ""
deriving DecidableEq, Repr

/-- The spec of a `MetalStackFirewall`. -/
structure MetalStackFirewallSpec where
  MachineType : String := ""
  Image : String := ""
  SSHKeys : List String := []
  ProviderID : Option String := none
deriving DecidableEq, Repr

/-- The status of a `MetalStackFirewall`. -/
structure MetalStackFirewallStatus where
  Ready : Bool := false
deriving DecidableEq, Repr

/-- The type `MetalStackFirewall`. -/
structure MetalStackFirewall where
  Name : String := ""
  Namespace : String := ""
  ClusterLabel : String := ""
  Finalizers : List String := []
  DeletionTimestamp : Option Nat := none
  Spec : MetalStackFirewallSpec := {}
  Status : MetalStackFirewallStatus := {}
deriving DecidableEq, Repr

/-- The method `DeletionTimestamp.IsZero()` of `metav1.Time`: nil or zero time. -/
def DeletionTimestampIsZero (t : Option Nat) : Bool :=
  match t with
  | none => true
  | some n => n == 0

/-- The function `controllerutil.AddFinalizer`: insert unless present. -/
def AddFinalizer (fs : List String) (f : String) : List String :=
  if f ∈ fs then fs else fs ++ [f]

/-- The function `controllerutil.RemoveFinalizer`: drop every occurrence. -/
def RemoveFinalizer (fs : List String) (f : String) : List String :=
  fs.filter (fun x => x != f)

/-! ## Requests and responses of the provisioning client -/

/-- The type `metalgo.NetworkAllocateRequest`. -/
structure NetworkAllocateRequest where
  Description : String
  Labels : List (String × String)
  Name : String
  PartitionID : String
  ProjectID : String
deriving DecidableEq, Repr

/-- The type `metalgo.IPAllocateRequest`. -/
structure IPAllocateRequest where
  Description : String
  Name : String
  Networkid : String
  Projectid : String
  IPAddress : String
  Type_ : String
  Tags : List String
deriving DecidableEq, Repr

/-- The type `metalgo.MachineCreateRequest`, wrapped by `FirewallCreateRequest`. -/
structure MachineCreateRequest where
  Description : String
  Name : String
  Hostname : String
  Size : String
  Project : String
  Partition : String
  Image : String
  SSHPublicKeys : List String
  Networks : List String
  UserData : String
  Tags : List String
  UUID : String := ""
deriving DecidableEq, Repr

/-- The type `models.V1FirewallCreateRequest`. -/
structure V1FirewallCreateRequest where
  Description : String
  Name : String
  Hostname : String
  Sizeid : String
  Projectid : String
  Partitionid : String
  Imageid : String
  SSHPubKeys : List String
  Networks : List String
  UserData : String
  Tags : List String
  UUID : String := ""
deriving DecidableEq, Repr

/-- The type `models.V1FirewallFindRequest`, with the three fields that are set. -/
structure V1FirewallFindRequest where
  ID : String
  AllocationProject : String
  Tags : List String
deriving DecidableEq, Repr

/-- The type `models.V1NetworkResponse`: only `ID *string` is read. -/
structure V1NetworkResponse where
  ID : Option String
deriving DecidableEq, Repr

/-- The type `metalgo.NetworkDetailResponse`. -/
structure NetworkDetailResponse where
  Network : Option V1NetworkResponse
deriving DecidableEq, Repr

/-- The type `models.V1MachineAllocation`: only `Succeeded *bool` is read. -/
structure V1MachineAllocation where
  Succeeded : Option Bool
deriving DecidableEq, Repr

/-- The type `models.V1FirewallResponse`: `ID *string` and `Allocation`. -/
structure V1FirewallResponse where
  ID : Option String
  Allocation : Option V1MachineAllocation := none
deriving DecidableEq, Repr

/-- The type `metalgo.FirewallCreateResponse`. -/
structure FirewallCreateResponse where
  Firewall : Option V1FirewallResponse
deriving DecidableEq, Repr

/-- The type `metalgo.IPListResponse`: the slice `IPs`, by the addresses. -/
structure IPListResponse where
  IPs : List String
deriving DecidableEq, Repr

/-- The type `models.V1MachineResponse`: only `Allocation` is read. -/
structure V1MachineResponse where
  Allocation : Option V1MachineAllocation
deriving DecidableEq, Repr

/-- The type `machine.FindMachineOK`. -/
structure FindMachineOK where
  Payload : Option V1MachineResponse
deriving DecidableEq, Repr

/-- The type `firewall.FindFirewallOK`. -/
structure FindFirewallOK where
  Payload : Option V1FirewallResponse
deriving DecidableEq, Repr

/-- The type `firewall.FindFirewallsOK`: the payload is a slice. -/
structure FindFirewallsOK where
  Payload : List V1FirewallResponse
deriving DecidableEq, Repr

/-- The type `firewall.AllocateFirewallOK`. -/
structure AllocateFirewallOK where
  Payload : Option V1FirewallResponse
deriving DecidableEq, Repr

/-! ## Collaborator calls -/

/-- One call to a collaborator, with the request it was given. -/
inductive Call where
  | NetworkAllocate (req : NetworkAllocateRequest)
  | IPAllocate (req : IPAllocateRequest)
  | FirewallCreate (req : MachineCreateRequest)
  | MachineDelete (id : String)
  | IPList
  | NetworkFree (id : String)
  /-- The store call `Client.List` over the machines of a cluster. -/
  | List (ns : String) (clusterLabel : String)
  /-- The store call `Client.DeleteAllOf`: bulk delete by label. -/
  | DeleteAllOf (ns : String) (clusterLabel : String)
  | FindMachine (id : String)
  | FindFirewall (id : String)
  | FindFirewalls (body : V1FirewallFindRequest)
  | DeleteMachine (id : String)
  | AllocateFirewall (body : V1FirewallCreateRequest)
  | getKubeconfig
  /-- The store call `Client.Get` of the reconciled object. -/
  | Get
  /-- The store lookup `util.GetOwnerCluster`. -/
  | GetOwnerCluster
  /-- The store lookup `getMetalStackCluster` by namespace and label. -/
  | getMetalStackCluster (ns : String) (name : String)
  /-- The deferred `patch.Helper.Patch`. -/
  | Patch
deriving DecidableEq, Repr

/-- The operation a call belongs to, without its arguments. -/
inductive CallKind where
  | NetworkAllocate | IPAllocate | FirewallCreate | MachineDelete | IPList
  | NetworkFree | List | DeleteAllOf | FindMachine | FindFirewall
  | FindFirewalls | DeleteMachine | AllocateFirewall | getKubeconfig | Get
  | GetOwnerCluster | getMetalStackCluster | Patch
deriving DecidableEq, Repr

/-- The operation of a call. -/
def Call.kind : Call → CallKind
  | .NetworkAllocate _ => .NetworkAllocate
  | .IPAllocate _ => .IPAllocate
  | .FirewallCreate _ => .FirewallCreate
  | .MachineDelete _ => .MachineDelete
  | .IPList => .IPList
  | .NetworkFree _ => .NetworkFree
  | .List _ _ => .List
  | .DeleteAllOf _ _ => .DeleteAllOf
  | .FindMachine _ => .FindMachine
  | .FindFirewall _ => .FindFirewall
  | .FindFirewalls _ => .FindFirewalls
  | .DeleteMachine _ => .DeleteMachine
  | .AllocateFirewall _ => .AllocateFirewall
  | .getKubeconfig => .getKubeconfig
  | .Get => .Get
  | .GetOwnerCluster => .GetOwnerCluster
  | .getMetalStackCluster _ _ => .getMetalStackCluster
  | .Patch => .Patch

/-- The operations of a trace, in order. -/
def kinds (calls : List Call) : List CallKind :=
  calls.map Call.kind

/-- The five state-changing provisioning operations of the cluster reconciler:
allocate network, allocate IP, create firewall, delete machine, free network. -/
def CallKind.stateChanging : CallKind → Bool
  | .NetworkAllocate => true
  | .IPAllocate => true
  | .FirewallCreate => true
  | .MachineDelete => true
  | .NetworkFree => true
  | _ => false

/-- The state-changing provisioning operations of a trace, in order. -/
def stateChangingCalls (calls : List Call) : List CallKind :=
  (kinds calls).filter CallKind.stateChanging

/-- A run of a Go function over a record: the record as left in memory, the
collaborator calls issued, and the completion. -/
structure Run (ρ α : Type) where
  obj : ρ
  calls : List Call
  out : Completion α
deriving DecidableEq, Repr

/-- A Go assignment `x = v` to a variable that already holds a value: the old
value is dropped. -/
def assign {α : Type} (_old : α) (v : α) : α := v

/-! ## The cluster reconciler (`metalstackcluster_controller.go`) -/

namespace ClusterCtl

/-- The constant `MetalStackClusterFinalizer`. -/
def MetalStackClusterFinalizer : String :=
  "metalstackcluster.infrastructure.cluster.x-k8s.io"

/-- The constant `capierrors.InvalidConfigurationClusterError`. -/
def InvalidConfigurationClusterError : String := "InvalidConfiguration"

/-- Everything the cluster reconciler takes from outside the file: the requeue
constants and helper methods declared elsewhere in the repository, and what each
collaborator answers in this invocation. -/
structure Env where
  /-- The package constant `requeueInstantly`. -/
  requeueInstantly : Result
  /-- The package constant `requeueWithSmallDelay`. -/
  requeueWithSmallDelay : Result
  /-- The package constant `requeueWithDelay`. -/
  requeueWithDelay : Result
  /-- The constant `tag.ClusterID` of metal-lib. -/
  tagClusterID : String
  /-- The method `Spec.Firewall.ParsedProviderID()`. -/
  ParsedProviderID : FirewallSpec → Except Error String
  /-- The method `Spec.Firewall.SetProviderID(id)`. -/
  SetProviderID : FirewallSpec → String → FirewallSpec
  /-- The helper `toNetworks`. -/
  toNetworks : String → String → List String
  NetworkAllocate : GoResult NetworkDetailResponse
  /-- The error of `IPAllocate`; its response is discarded. -/
  IPAllocate : Option Error
  FirewallCreate : GoResult FirewallCreateResponse
  /-- The error of `MachineDelete`; its response is discarded. -/
  MachineDelete : Option Error
  IPList : GoResult IPListResponse
  /-- The error of `NetworkFree`; its response is discarded. -/
  NetworkFree : Option Error
  /-- The error of `Client.Get`. -/
  Get : Option Error
  /-- The predicate `apierrors.IsNotFound`. -/
  IsNotFound : Error → Bool
  /-- The error of `patch.NewHelper`. -/
  NewHelper : Option Error
  /-- The error of the deferred `h.Patch`. -/
  Patch : Option Error
  GetOwnerCluster : GoResult CapiCluster
  /-- The predicate `util.IsPaused`. -/
  IsPaused : CapiCluster → MetalStackCluster → Bool
  /-- The error of `Client.List` over the machines. -/
  List : Option Error
  /-- The length of `machines.Items` after `Client.List`. -/
  Items : Nat
  /-- The error of `Client.DeleteAllOf`. -/
  DeleteAllOf : Option Error

/-- The method `allocateNetwork`. -/
def allocateNetwork (env : Env) (metalCluster : MetalStackCluster) :
    Run MetalStackCluster (Option Error) :=
  let req : NetworkAllocateRequest :=
    { Description := metalCluster.Name
      Labels := [(env.tagClusterID, metalCluster.Name)]
      Name := metalCluster.Spec.Partition
      PartitionID := metalCluster.Spec.Partition
      ProjectID := metalCluster.Spec.ProjectID }
  let calls := [Call.NetworkAllocate req]
  match env.NetworkAllocate.err with
  | some err => ⟨metalCluster, calls, .returned (some err)⟩
  | none =>
    match env.NetworkAllocate.resp with
    | none => ⟨metalCluster, calls, .panicked⟩
    | some resp =>
      match resp.Network with
      | none => ⟨metalCluster, calls, .panicked⟩
      | some network =>
        ⟨{ metalCluster with
            Spec := { metalCluster.Spec with PrivateNetworkID := network.ID } },
          calls, .returned none⟩

/-- The method `allocateControlPlaneIP`. -/
def allocateControlPlaneIP (env : Env) (metalCluster : MetalStackCluster) :
    Run MetalStackCluster (Option Error) :=
  let req : IPAllocateRequest :=
    { Description := ""
      Name := metalCluster.Name ++ "api-server-IP"
      Networkid := "internet-vagrant-lab"
      Projectid := metalCluster.Spec.ProjectID
      IPAddress := metalCluster.Spec.ControlPlaneEndpoint.Host
      Type_ := ""
      Tags := [] }
  let calls := [Call.IPAllocate req]
  match env.IPAllocate with
  | some err => ⟨metalCluster, calls, .returned (some err)⟩
  | none =>
    ⟨{ metalCluster with
        Status := { metalCluster.Status with ControlPlaneIPAllocated := true } },
      calls, .returned none⟩

/-- The method `createFirewall`. -/
def createFirewall (env : Env) (metalCluster : MetalStackCluster) :
    Run MetalStackCluster (Option Error) :=
  match metalCluster.Spec.Firewall.DefaultNetworkID with
  | none => ⟨metalCluster, [], .returned (some (.mk "Firewall.DefaultNetworkID"))⟩
  | some defaultNetworkID =>
  match metalCluster.Spec.Firewall.Image with
  | none => ⟨metalCluster, [], .returned (some (.mk "Firewall.Image"))⟩
  | some image =>
  match metalCluster.Spec.Firewall.Size with
  | none => ⟨metalCluster, [], .returned (some (.mk "Firewall.Size"))⟩
  | some size =>
  match metalCluster.Spec.PrivateNetworkID with
  | none => ⟨metalCluster, [], .returned (some (.mk "PrivateNetworkID"))⟩
  | some privateNetworkID =>
    let machineCreateReq : MachineCreateRequest :=
      { Description := metalCluster.Name ++ " created by Cluster API provider MetalStack"
        Name := metalCluster.Name
        Hostname := metalCluster.Name ++ "-firewall"
        Size := size
        Project := metalCluster.Spec.ProjectID
        Partition := metalCluster.Spec.Partition
        Image := image
        SSHPublicKeys := metalCluster.Spec.Firewall.SSHKeys
        Networks := env.toNetworks defaultNetworkID privateNetworkID
        UserData := ""
        Tags := [] }
    -- Set machine ID if it is set in firewall config
    let machineCreateReq : MachineCreateRequest :=
      match env.ParsedProviderID metalCluster.Spec.Firewall with
      | .ok pid => { machineCreateReq with UUID := pid }
      | .error _ => machineCreateReq
    let calls := [Call.FirewallCreate machineCreateReq]
    match env.FirewallCreate.err with
    | some err => ⟨metalCluster, calls, .returned (some err)⟩
    | none =>
      match env.FirewallCreate.resp with
      | none => ⟨metalCluster, calls, .panicked⟩
      | some resp =>
        match resp.Firewall with
        | none => ⟨metalCluster, calls, .panicked⟩
        | some firewall =>
          match firewall.ID with
          | none => ⟨metalCluster, calls, .panicked⟩
          | some id =>
            ⟨{ metalCluster with
                Spec := { metalCluster.Spec with
                  Firewall := env.SetProviderID metalCluster.Spec.Firewall id } },
              calls, .returned none⟩

/-- The method `countMachines`: the calls, the count and the error.  On a
failed list the error is built from the still nil named result `err`. -/
def countMachines (env : Env) (cluster : CapiCluster) :
    List Call × Nat × Option Error :=
  let calls := [Call.List cluster.Namespace cluster.Name]
  match env.List with
  | some _ => (calls, 0, some (.mk "Failed to list machines: %!w(<nil>)"))
  | none => (calls, env.Items, none)

/-- The method `deleteMachines`: the calls and the error. -/
def deleteMachines (env : Env) (cluster : CapiCluster) : List Call × Option Error :=
  let calls := [Call.DeleteAllOf cluster.Namespace cluster.Name]
  match env.DeleteAllOf with
  | some err => (calls, some err)
  | none => (calls, none)

/-- The method `deleteFirewall`: the calls and the error. -/
def deleteFirewall (env : Env) (metalCluster : MetalStackCluster) :
    List Call × Option Error :=
  match env.ParsedProviderID metalCluster.Spec.Firewall with
  | .error err => ([], some (.errorf "failed to parse providerID of Firewall: " err))
  | .ok providerId => ([Call.MachineDelete providerId], env.MachineDelete)

/-- The method `reconcileDelete`. -/
def reconcileDelete (env : Env) (cluster : CapiCluster)
    (metalCluster : MetalStackCluster) :
    Run MetalStackCluster (Result × Option Error) :=
  -- Check if there are still active machines in Cluster
  match countMachines env cluster with
  | (calls1, _, some err) =>
    ⟨metalCluster, calls1, .returned ({}, some (.errorf "Failed to count machines: " err))⟩
  | (calls1, machineCount, none) =>
    if machineCount > 0 then
      -- Delete machines
      match deleteMachines env cluster with
      | (calls2, some err) =>
        ⟨metalCluster, calls1 ++ calls2,
          .returned ({}, some (.errorf "Failed to delete machines: " err))⟩
      | (calls2, none) =>
        ⟨metalCluster, calls1 ++ calls2, .returned (env.requeueWithSmallDelay, none)⟩
    else
      -- Delete firewall
      match deleteFirewall env metalCluster with
      | (calls2, some err) =>
        ⟨metalCluster, calls1 ++ calls2,
          .returned ({}, some (.errorf "Failed to delete Firewall: " err))⟩
      | (calls2, none) =>
        -- Wait until all IPs are freed
        let calls3 := calls1 ++ calls2 ++ [Call.IPList]
        match env.IPList.err with
        | some err =>
          ⟨metalCluster, calls3, .returned ({}, some (.errorf "Failed to list IPs: " err))⟩
        | none =>
          match env.IPList.resp with
          | none => ⟨metalCluster, calls3, .panicked⟩
          | some resp =>
            if resp.IPs.length > 0 then
              ⟨metalCluster, calls3, .returned (env.requeueWithSmallDelay, none)⟩
            else
              -- Delete network
              match metalCluster.Spec.PrivateNetworkID with
              | none => ⟨metalCluster, calls3, .panicked⟩
              | some privateNetworkID =>
                let calls4 := calls3 ++ [Call.NetworkFree privateNetworkID]
                match env.NetworkFree with
                | some err =>
                  ⟨metalCluster, calls4,
                    .returned ({}, some (.errorf "Failed to free network: " err))⟩
                | none =>
                  ⟨{ metalCluster with
                      Finalizers :=
                        RemoveFinalizer metalCluster.Finalizers MetalStackClusterFinalizer },
                    calls4, .returned ({}, none)⟩

/-- The method `reconcile`. -/
def reconcile (env : Env) (metalCluster : MetalStackCluster) :
    Run MetalStackCluster (Result × Option Error) :=
  let c0 : MetalStackCluster :=
    { metalCluster with
      Finalizers := AddFinalizer metalCluster.Finalizers MetalStackClusterFinalizer }
  -- Allocate network.
  let r1 : Run MetalStackCluster (Option Error) :=
    if c0.Spec.PrivateNetworkID = none then allocateNetwork env c0
    else ⟨c0, [], .returned none⟩
  match r1.out with
  | .panicked => ⟨r1.obj, r1.calls, .panicked⟩
  | .returned (some _) => ⟨r1.obj, r1.calls, .returned (env.requeueWithDelay, none)⟩
  | .returned none =>
    -- Allocate IP for API server
    let r2 : Run MetalStackCluster (Option Error) :=
      if !r1.obj.Status.ControlPlaneIPAllocated then allocateControlPlaneIP env r1.obj
      else ⟨r1.obj, [], .returned none⟩
    match r2.out with
    | .panicked => ⟨r2.obj, r1.calls ++ r2.calls, .panicked⟩
    | .returned (some _) =>
      ⟨r2.obj, r1.calls ++ r2.calls, .returned (env.requeueInstantly, none)⟩
    | .returned none =>
      -- Create firewall
      let r3 : Run MetalStackCluster (Option Error) :=
        if !r2.obj.Status.FirewallReady then
          let r := createFirewall env r2.obj
          match r.out with
          | .returned none =>
            ⟨{ r.obj with Status := { r.obj.Status with FirewallReady := true } },
              r.calls, .returned none⟩
          | _ => r
        else ⟨r2.obj, [], .returned none⟩
      match r3.out with
      | .panicked => ⟨r3.obj, r1.calls ++ r2.calls ++ r3.calls, .panicked⟩
      | .returned (some _) =>
        ⟨r3.obj, r1.calls ++ r2.calls ++ r3.calls, .returned (env.requeueWithDelay, none)⟩
      | .returned none =>
        ⟨{ r3.obj with Status := { r3.obj.Status with Ready := true } },
          r1.calls ++ r2.calls ++ r3.calls, .returned ({}, none)⟩

/-- The deferred closure of `Reconcile`, acting on the named result `err`:
on a failed patch it first wraps, then assigns `err` once more. -/
def deferredPatch (env : Env) (err : Option Error) : Option Error :=
  match env.Patch with
  | none => err
  | some e =>
    let err1 : Option Error :=
      match err with
      | some prior => assign err (some (Error.withMessage e prior.text))
      | none => err
    assign err1 (some (Error.errorf "patch: " e))

/-- The body of `Reconcile` after the patch helper exists, up to its `return`. -/
def reconcileBody (env : Env) (metalCluster : MetalStackCluster) :
    Run MetalStackCluster (Result × Option Error) :=
  -- Fetch the Cluster.
  match env.GetOwnerCluster.err with
  | some err =>
    ⟨{ metalCluster with
        Status := { metalCluster.Status with
          FailureReason := some InvalidConfigurationClusterError
          FailureMessage := some "Unable to get OwnerCluster" } },
      [Call.GetOwnerCluster], .returned ({}, some (.errorf "get OwnerCluster: " err))⟩
  | none =>
    match env.GetOwnerCluster.resp with
    | none => ⟨metalCluster, [Call.GetOwnerCluster], .returned (env.requeueWithDelay, none)⟩
    | some cluster =>
      if env.IsPaused cluster metalCluster then
        ⟨metalCluster, [Call.GetOwnerCluster], .returned (env.requeueWithDelay, none)⟩
      else if !DeletionTimestampIsZero metalCluster.DeletionTimestamp then
        let r := reconcileDelete env cluster metalCluster
        ⟨r.obj, Call.GetOwnerCluster :: r.calls, r.out⟩
      else
        let r := reconcile env metalCluster
        ⟨r.obj, Call.GetOwnerCluster :: r.calls, r.out⟩

/-- The method `Reconcile` on the stored record `stored`.  The result `err` is
a named result, so the deferred closure rewrites what the driver receives. -/
def Reconcile (env : Env) (stored : MetalStackCluster) :
    Run MetalStackCluster (Result × Option Error) :=
  -- Fetch the MetalStackCluster.
  match env.Get with
  | some err =>
    if env.IsNotFound err then ⟨{}, [Call.Get], .returned ({}, none)⟩
    else ⟨{}, [Call.Get], .returned ({}, some (.errorf "fetch MetalStackCluster: " err))⟩
  | none =>
    -- Persist any changes to MetalStackCluster.
    match env.NewHelper with
    | some err =>
      ⟨stored, [Call.Get], .returned ({}, some (.errorf "init patch helper: " err))⟩
    | none =>
      let body := reconcileBody env stored
      match body.out with
      | .panicked => ⟨body.obj, Call.Get :: body.calls ++ [Call.Patch], .panicked⟩
      | .returned (res, err) =>
        ⟨body.obj, Call.Get :: body.calls ++ [Call.Patch],
          .returned (res, deferredPatch env err)⟩

/-- The cluster records the reconciler can be handed: a record is created with
zero status, and from then on it is changed only by runs of the reconciler, of
which the store keeps the record the run leaves behind. -/
inductive Reachable : MetalStackCluster → Prop where
  /-- A record as its creator hands it over: any spec, zero status. -/
  | created (c : MetalStackCluster) (hzero : c.Status = {}) : Reachable c
  /-- The record after a run of the forward path. -/
  | afterReconcile (env : Env) (c : MetalStackCluster) (h : Reachable c) :
      Reachable (reconcile env c).obj
  /-- The record after a run of the deletion path. -/
  | afterReconcileDelete (env : Env) (cl : CapiCluster) (c : MetalStackCluster)
      (h : Reachable c) : Reachable (reconcileDelete env cl c).obj
  /-- The record after a run of `Reconcile`. -/
  | afterReconcileRun (env : Env) (c : MetalStackCluster) (h : Reachable c) :
      Reachable (Reconcile env c).obj

end ClusterCtl

/-! ## The firewall reconciler (`metalstackfirewall_controller.go`) -/

namespace FirewallCtl

/-- Everything the firewall reconciler takes from outside the file: constants
and helpers declared elsewhere in the repository, and what each collaborator
answers in this invocation. -/
structure Env where
  /-- The constant `api.MetalStackFirewallFinalizer`. -/
  MetalStackFirewallFinalizer : String
  /-- The method `firewall.Spec.ParsedProviderID()`. -/
  ParsedProviderID : MetalStackFirewallSpec → Except Error String
  /-- The method `firewall.Spec.SetProviderID(id)`. -/
  SetProviderID : MetalStackFirewallSpec → String → MetalStackFirewallSpec
  /-- The method `metalCluster.GetClusterIDTag()`. -/
  GetClusterIDTag : MetalStackCluster → String
  /-- The helper `toMachineNetworks`. -/
  toMachineNetworks : String → String → List String
  /-- The helper `getKubeconfig`: a nilable byte slice and an error. -/
  getKubeconfig : GoResult String
  /-- The helper `generateFirewallIgnitionConfig`: user data and an error. -/
  generateFirewallIgnitionConfig : String → String × Option Error
  FindMachine : GoResult FindMachineOK
  FindFirewall : GoResult FindFirewallOK
  FindFirewalls : GoResult FindFirewallsOK
  /-- The error of `DeleteMachine`; its response is discarded. -/
  DeleteMachine : Option Error
  AllocateFirewall : GoResult AllocateFirewallOK
  /-- The error of `Client.Get`. -/
  Get : Option Error
  /-- The predicate `apierrors.IsNotFound`, as `client.IgnoreNotFound` uses it. -/
  IsNotFound : Error → Bool
  /-- The helper `getMetalStackCluster`: the cluster, or nil. -/
  getMetalStackCluster : Option MetalStackCluster
  /-- The error of `patch.NewHelper`. -/
  NewHelper : Option Error
  /-- The error of the deferred `h.Patch`. -/
  Patch : Option Error

/-- The method `reconcileDelete`. -/
def reconcileDelete (env : Env) (firewall : MetalStackFirewall)
    (metalCluster : MetalStackCluster) :
    Run MetalStackFirewall (Result × Option Error) :=
  match env.ParsedProviderID firewall.Spec with
  | .error err => ⟨firewall, [], .returned ({}, some (.errorf "parse provider ID: " err))⟩
  | .ok id =>
    let body : V1FirewallFindRequest :=
      { ID := id
        AllocationProject := metalCluster.Spec.ProjectID
        Tags := [env.GetClusterIDTag metalCluster] }
    let calls1 := [Call.FindFirewalls body]
    match env.FindFirewalls.err with
    | some err =>
      ⟨firewall, calls1, .returned ({}, some (.errorf "error finding firewalls: " err))⟩
    | none =>
      match env.FindFirewalls.resp with
      | none => ⟨firewall, calls1, .panicked⟩
      | some resp =>
        let removed : MetalStackFirewall :=
          { firewall with
            Finalizers := RemoveFinalizer firewall.Finalizers env.MetalStackFirewallFinalizer }
        if resp.Payload.length = 1 then
          let calls2 := calls1 ++ [Call.DeleteMachine id]
          match env.DeleteMachine with
          | some err =>
            ⟨firewall, calls2,
              .returned ({}, some (.errorf
                ("failed to delete the MetalStackFirewall " ++ firewall.Name ++ ": ") err))⟩
          | none => ⟨removed, calls2, .returned ({}, none)⟩
        else ⟨removed, calls1, .returned ({}, none)⟩

/-- The method `createRawMachineIfNotExists`. -/
def createRawMachineIfNotExists (env : Env) (firewall : MetalStackFirewall)
    (metalCluster : MetalStackCluster) :
    Run MetalStackFirewall (Option Error) :=
  let calls1 := [Call.getKubeconfig]
  match env.getKubeconfig.err with
  | some err => ⟨firewall, calls1, .returned (some (.errorf "Failed to get kubeconfig: " err))⟩
  | none =>
    match env.getKubeconfig.resp with
    | none => ⟨firewall, calls1, .returned none⟩
    | some kubeconfig =>
      match env.generateFirewallIgnitionConfig kubeconfig with
      | (_, some err) =>
        ⟨firewall, calls1,
          .returned (some (.errorf "Failed to generate firewall ignition config: " err))⟩
      | (userData, none) =>
        match metalCluster.Spec.PrivateNetworkID with
        | none => ⟨firewall, calls1, .panicked⟩
        | some privateNetworkID =>
          let machineCreateReq : V1FirewallCreateRequest :=
            { Description := firewall.Name ++ " created by Cluster API provider MetalStack"
              Name := firewall.Name
              Hostname := firewall.Name ++ "-firewall"
              Sizeid := firewall.Spec.MachineType
              Projectid := metalCluster.Spec.ProjectID
              Partitionid := metalCluster.Spec.Partition
              Imageid := firewall.Spec.Image
              SSHPubKeys := firewall.Spec.SSHKeys
              Networks :=
                env.toMachineNetworks metalCluster.Spec.PublicNetworkID privateNetworkID
              UserData := userData
              Tags := [env.GetClusterIDTag metalCluster] }
          -- If ProviderID is provided set it in request
          let machineCreateReq : V1FirewallCreateRequest :=
            match env.ParsedProviderID firewall.Spec with
            | .ok pid => { machineCreateReq with UUID := pid }
            | .error _ => machineCreateReq
          let calls2 := calls1 ++ [Call.AllocateFirewall machineCreateReq]
          match env.AllocateFirewall.err with
          | some err => ⟨firewall, calls2, .returned (some err)⟩
          | none =>
            match env.AllocateFirewall.resp with
            | none => ⟨firewall, calls2, .panicked⟩
            | some resp =>
              match resp.Payload with
              | none => ⟨firewall, calls2, .panicked⟩
              | some payload =>
                match payload.ID with
                | none => ⟨firewall, calls2, .panicked⟩
                | some id =>
                  ⟨{ firewall with Spec := env.SetProviderID firewall.Spec id },
                    calls2, .returned none⟩

/-- The tail of `reconcile` after the allocation check: create the raw machine,
then always requeue. -/
def reconcileCreate (env : Env) (firewall : MetalStackFirewall)
    (metalCluster : MetalStackCluster) (calls : List Call) :
    Run MetalStackFirewall (Result × Option Error) :=
  let r := createRawMachineIfNotExists env firewall metalCluster
  match r.out with
  | .panicked => ⟨r.obj, calls ++ r.calls, .panicked⟩
  | .returned (some err) => ⟨r.obj, calls ++ r.calls, .returned ({}, some err)⟩
  | .returned none =>
    -- Always requeue after successful firewall creation
    ⟨r.obj, calls ++ r.calls, .returned ({ Requeue := true }, none)⟩

/-- The method `reconcile`.  The error of `FindMachine` is discarded
(`resp, _ :=`), and `resp.Payload.Allocation` is read whatever it was. -/
def reconcile (env : Env) (firewall : MetalStackFirewall)
    (metalCluster : MetalStackCluster) :
    Run MetalStackFirewall (Result × Option Error) :=
  let f0 : MetalStackFirewall :=
    { firewall with
      Finalizers := AddFinalizer firewall.Finalizers env.MetalStackFirewallFinalizer }
  -- Check if the firewall was deployed successfully
  match env.ParsedProviderID f0.Spec with
  | .error _ => reconcileCreate env f0 metalCluster []
  | .ok pid =>
    let calls1 := [Call.FindMachine pid]
    match env.FindMachine.resp with
    | none => ⟨f0, calls1, .panicked⟩
    | some resp =>
      match resp.Payload with
      | none => ⟨f0, calls1, .panicked⟩
      | some payload =>
        match payload.Allocation with
        | none => reconcileCreate env f0 metalCluster calls1
        | some _ =>
          let calls2 := calls1 ++ [Call.FindFirewall pid]
          match env.FindFirewall.err with
          | some err =>
            ⟨f0, calls2,
              .returned ({}, some (.errorf
                ("failed to get firewall with ID " ++ pid ++ ": ") err))⟩
          | none =>
            match env.FindFirewall.resp with
            | none => ⟨f0, calls2, .panicked⟩
            | some resp2 =>
              match resp2.Payload with
              | none => ⟨f0, calls2, .panicked⟩
              | some payload2 =>
                match payload2.Allocation with
                | none => ⟨f0, calls2, .panicked⟩
                | some allocation =>
                  match allocation.Succeeded with
                  | none => ⟨f0, calls2, .panicked⟩
                  | some succeeded =>
                    ⟨{ f0 with Status := { f0.Status with Ready := succeeded } },
                      calls2, .returned ({ Requeue := !succeeded }, none)⟩

/-- The deferred closure of `Reconcile`, acting on the local variable `err`
declared by `h, err := patch.NewHelper(...)`: the new value of that variable. -/
def deferredPatch (env : Env) (err : Option Error) : Option Error :=
  match env.Patch with
  | none => err
  | some e =>
    let err1 : Option Error :=
      match err with
      | some prior => assign err (some (Error.errorf (e.text ++ ": ") prior))
      | none => err
    assign err1 (some (Error.errorf "patch: " e))

/-- The method `Reconcile` on the stored record `stored`.  Its results are
unnamed: a `return` fixes what the driver receives before the deferred closure
runs, and the closure writes only the local `err`. -/
def Reconcile (env : Env) (stored : MetalStackFirewall) :
    Run MetalStackFirewall (Result × Option Error) :=
  -- Fetch the MetalStackFirewall in the Request.
  match env.Get with
  | some err =>
    ⟨{}, [Call.Get], .returned ({}, if env.IsNotFound err then none else some err)⟩
  | none =>
    let calls1 := [Call.Get, Call.getMetalStackCluster stored.Namespace stored.ClusterLabel]
    match env.getMetalStackCluster with
    | none => ⟨stored, calls1, .returned ({ Requeue := true }, none)⟩
    | some metalCluster =>
      -- Persist any change to MetalStackFirewall
      match env.NewHelper with
      | some err => ⟨stored, calls1, .returned ({}, some err)⟩
      | none =>
        let err : Option Error := none
        let body : Run MetalStackFirewall (Result × Option Error) :=
          if !DeletionTimestampIsZero stored.DeletionTimestamp then
            reconcileDelete env stored metalCluster
          else reconcile env stored metalCluster
        -- the deferred closure: the patch is issued, the local `err` is written
        let _err : Option Error := deferredPatch env err
        ⟨body.obj, calls1 ++ body.calls ++ [Call.Patch], body.out⟩

end FirewallCtl

/-! ## Concrete inputs

Records and collaborator answers on which the theorems below are evaluated.
-/

namespace ClusterCtl

/-- A provider-identity parser for the concrete inputs: unset and empty
identities do not parse, any other identity parses to itself. -/
def exParse (s : FirewallSpec) : Except Error String :=
  match s.ProviderID with
  | none => .error (.mk "providerID is not set")
  | some p => if p = "" then .error (.mk "providerID is empty") else .ok p

/-- An invocation in which every collaborator call succeeds, the cluster has no
workload machines and the project holds no IPs. -/
def exEnv : Env :=
  { requeueInstantly := { Requeue := true }
    requeueWithSmallDelay := { RequeueAfter := 2000000000 }
    requeueWithDelay := { RequeueAfter := 10000000000 }
    tagClusterID := "cluster.metal-stack.io/id"
    ParsedProviderID := exParse
    SetProviderID := fun s id => { s with ProviderID := some id }
    toNetworks := fun a b => [a, b]
    NetworkAllocate := ⟨some ⟨some ⟨some "net-1"⟩⟩, none⟩
    IPAllocate := none
    FirewallCreate := ⟨some ⟨some { ID := some "fw-1" }⟩, none⟩
    MachineDelete := none
    IPList := ⟨some ⟨[]⟩, none⟩
    NetworkFree := none
    Get := none
    IsNotFound := fun _ => false
    NewHelper := none
    Patch := none
    GetOwnerCluster := ⟨some { Name := "c1", Namespace := "default" }, none⟩
    IsPaused := fun _ _ => false
    List := none
    Items := 0
    DeleteAllOf := none }

/-- The owner cluster of the concrete inputs. -/
def exOwner : CapiCluster := { Name := "c1", Namespace := "default" }

/-- A freshly created cluster record: nothing allocated, zero status. -/
def exCluster : MetalStackCluster :=
  { Name := "c1"
    Namespace := "default"
    Spec :=
      { Partition := "p1"
        ProjectID := "proj1"
        Firewall :=
          { DefaultNetworkID := some "internet"
            Image := some "firewall-ubuntu"
            Size := some "c1-xlarge" } } }

/-- A fully reconciled cluster record: network, IP and firewall in place. -/
def exReady : MetalStackCluster :=
  { exCluster with
    Finalizers := [MetalStackClusterFinalizer]
    Spec :=
      { exCluster.Spec with
        PrivateNetworkID := some "net-1"
        Firewall := { exCluster.Spec.Firewall with ProviderID := some "fw-1" } }
    Status := { Ready := true, FirewallReady := true, ControlPlaneIPAllocated := true } }

/-- The fully reconciled record, marked for deletion. -/
def exDeleting : MetalStackCluster :=
  { exReady with DeletionTimestamp := some 1604448000 }

/-- An invocation in which the owner lookup fails and the patch on exit fails
as well. -/
def exEnvOwnerAndPatchFail : Env :=
  { exEnv with
    GetOwnerCluster := ⟨none, some (.mk "owner lookup timed out")⟩
    Patch := some (.mk "conflict") }

/-- An invocation of the deletion path in which the project still holds an IP. -/
def exEnvIPsLeft : Env :=
  { exEnv with IPList := ⟨some ⟨["212.34.83.13"]⟩, none⟩ }

/-- An invocation in which NetworkAllocate succeeds with a network that carries
no ID. -/
def exEnvNoNetworkID : Env :=
  { exEnv with NetworkAllocate := ⟨some ⟨some ⟨none⟩⟩, none⟩ }

/-- A record whose step flags are already latched while `privateNetworkID` is
unset and `ready` is false. -/
def exFlagsWithoutNetwork : MetalStackCluster :=
  { exCluster with
    Finalizers := [MetalStackClusterFinalizer]
    Spec :=
      { exCluster.Spec with
        Firewall := { exCluster.Spec.Firewall with ProviderID := some "fw-1" } }
    Status := { FirewallReady := true, ControlPlaneIPAllocated := true } }

/-- A record deleted before its network was allocated: the firewall provider
identity is pre-bound, `privateNetworkID` is unset. -/
def exDeletingWithoutNetwork : MetalStackCluster :=
  { exCluster with
    Finalizers := [MetalStackClusterFinalizer]
    DeletionTimestamp := some 1604448000
    Spec :=
      { exCluster.Spec with
        Firewall := { exCluster.Spec.Firewall with ProviderID := some "fw-1" } } }

/-- An invocation in which IPAllocate fails. -/
def exEnvIPAllocateFails : Env :=
  { exEnv with IPAllocate := some (.mk "address already in use") }

end ClusterCtl

namespace FirewallCtl

/-- A provider-identity parser for the concrete inputs: unset and empty
identities do not parse, any other identity parses to itself. -/
def exParse (s : MetalStackFirewallSpec) : Except Error String :=
  match s.ProviderID with
  | none => .error (.mk "providerID is not set")
  | some p => if p = "" then .error (.mk "providerID is empty") else .ok p

/-- The cluster the concrete firewall belongs to. -/
def exCluster : MetalStackCluster :=
  { Name := "c1"
    Namespace := "default"
    Spec :=
      { Partition := "p1"
        ProjectID := "proj1"
        PublicNetworkID := "internet"
        PrivateNetworkID := some "net-1" } }

/-- An invocation in which every collaborator call succeeds; the machine is
found without an allocation record. -/
def exEnv : Env :=
  { MetalStackFirewallFinalizer := "metalstackfirewall.infrastructure.cluster.x-k8s.io"
    ParsedProviderID := exParse
    SetProviderID := fun s id => { s with ProviderID := some id }
    GetClusterIDTag := fun c => "cluster.metal-stack.io/id=" ++ c.Name
    toMachineNetworks := fun a b => [a, b]
    getKubeconfig := ⟨some "kubeconfig", none⟩
    generateFirewallIgnitionConfig := fun k => ("ignition:" ++ k, none)
    FindMachine := ⟨some ⟨some ⟨none⟩⟩, none⟩
    FindFirewall := ⟨some ⟨some { ID := some "m-1", Allocation := some ⟨some true⟩ }⟩, none⟩
    FindFirewalls := ⟨some ⟨[{ ID := some "m-1" }]⟩, none⟩
    DeleteMachine := none
    AllocateFirewall := ⟨some ⟨some { ID := some "m-1" }⟩, none⟩
    Get := none
    IsNotFound := fun _ => false
    getMetalStackCluster := some exCluster
    NewHelper := none
    Patch := none }

/-- The same invocation, with the machine reporting an allocation record. -/
def exEnvAllocated : Env :=
  { exEnv with FindMachine := ⟨some ⟨some ⟨some ⟨some true⟩⟩⟩, none⟩ }

/-- A firewall record with a pre-bound, parseable provider identity. -/
def exFirewall : MetalStackFirewall :=
  { Name := "fw"
    Namespace := "default"
    ClusterLabel := "c1"
    Finalizers := ["metalstackfirewall.infrastructure.cluster.x-k8s.io"]
    Spec :=
      { MachineType := "c1-xlarge"
        Image := "firewall-ubuntu"
        ProviderID := some "m-1" } }

/-- A firewall record without provider identity, marked for deletion. -/
def exUnparseable : MetalStackFirewall :=
  { exFirewall with
    DeletionTimestamp := some 1604448000
    Spec := { exFirewall.Spec with ProviderID := none } }

/-- The invocation with an allocation record, in which the patch on exit fails. -/
def exEnvPatchFails : Env :=
  { exEnvAllocated with Patch := some (.mk "conflict") }

/-- An invocation in which `FindMachine` fails: an error and no response. -/
def exEnvFindMachineFails : Env :=
  { exEnv with FindMachine := ⟨none, some (.mk "connection refused")⟩ }

/-- The firewall record with the parseable identity, marked for deletion. -/
def exFirewallDeleting : MetalStackFirewall :=
  { exFirewall with DeletionTimestamp := some 1604448000 }

/-- An invocation in which `FindFirewalls` succeeds with no match. -/
def exEnvNoMatch : Env :=
  { exEnv with FindFirewalls := ⟨some ⟨[]⟩, none⟩ }

/-- An invocation in which `FindFirewalls` finds one match and `DeleteMachine`
fails. -/
def exEnvDeleteFails : Env :=
  { exEnv with DeleteMachine := some (.mk "machine is locked") }

end FirewallCtl

/-! ## Traces -/

theorem stateChangingCalls_append (a b : List Call) :
    stateChangingCalls (a ++ b) = stateChangingCalls a ++ stateChangingCalls b := by
  simp [stateChangingCalls, kinds]

theorem stateChangingCalls_nil : stateChangingCalls [] = [] := rfl

theorem kinds_append (a b : List Call) : kinds (a ++ b) = kinds a ++ kinds b := by
  simp [kinds]

theorem kinds_nil : kinds [] = [] := rfl

/-! ## The cluster reconciler: what each step calls -/

namespace ClusterCtl

theorem allocateNetwork_kinds (env : Env) (c : MetalStackCluster) :
    kinds (allocateNetwork env c).calls = [.NetworkAllocate] := by
  unfold allocateNetwork
  simp only []
  repeat' split
  all_goals rfl

theorem allocateControlPlaneIP_kinds (env : Env) (c : MetalStackCluster) :
    kinds (allocateControlPlaneIP env c).calls = [.IPAllocate] := by
  unfold allocateControlPlaneIP
  simp only []
  repeat' split
  all_goals rfl

theorem createFirewall_kinds (env : Env) (c : MetalStackCluster) :
    kinds (createFirewall env c).calls = [] ∨
      kinds (createFirewall env c).calls = [.FirewallCreate] := by
  unfold createFirewall
  simp only []
  repeat' split
  all_goals first | (left; rfl) | (right; rfl)

theorem reconcile_kinds (env : Env) (c : MetalStackCluster) :
    (kinds (reconcile env c).calls).Sublist
      [.NetworkAllocate, .IPAllocate, .FirewallCreate] := by
  have h1 := allocateNetwork_kinds env
  have h2 := allocateControlPlaneIP_kinds env
  have h3 := createFirewall_kinds env
  unfold reconcile
  simp only []
  repeat' split
  all_goals simp only [kinds_append, kinds_nil, h1, h2, List.nil_append, List.append_nil]
  all_goals first
    | decide
    | (rcases h3 _ with h | h <;> rw [h] <;> decide)

theorem reconcileDelete_kinds (env : Env) (cl : CapiCluster) (c : MetalStackCluster) :
    (kinds (reconcileDelete env cl c).calls).Sublist
      [.List, .DeleteAllOf, .MachineDelete, .IPList, .NetworkFree] := by
  unfold reconcileDelete countMachines deleteMachines deleteFirewall
  cases hL : env.List <;> cases hD : env.DeleteAllOf <;>
    cases hP : env.ParsedProviderID c.Spec.Firewall <;> cases hM : env.MachineDelete <;>
    simp only [] <;> repeat' split
  all_goals simp only [kinds, Call.kind, List.map, List.append, List.cons_append,
    List.nil_append]
  all_goals decide

end ClusterCtl

/-! ## The firewall reconciler: what the creation step calls -/

namespace FirewallCtl

theorem createRawMachineIfNotExists_kinds (env : Env) (fw : MetalStackFirewall)
    (mc : MetalStackCluster) :
    kinds (createRawMachineIfNotExists env fw mc).calls = [.getKubeconfig] ∨
      kinds (createRawMachineIfNotExists env fw mc).calls
        = [.getKubeconfig, .AllocateFirewall] := by
  unfold createRawMachineIfNotExists
  simp only []
  repeat' split
  all_goals first | (left; rfl) | (right; rfl)

theorem createRawMachineIfNotExists_uuid (env : Env) (fw : MetalStackFirewall)
    (mc : MetalStackCluster) (pid : String)
    (hpid : env.ParsedProviderID fw.Spec = .ok pid) (body : V1FirewallCreateRequest)
    (hmem : Call.AllocateFirewall body ∈ (createRawMachineIfNotExists env fw mc).calls) :
    body.UUID = pid := by
  unfold createRawMachineIfNotExists at hmem
  simp only [hpid] at hmem
  repeat' split at hmem
  all_goals simp at hmem
  all_goals rw [hmem]

theorem reconcileCreate_calls (env : Env) (fw : MetalStackFirewall)
    (mc : MetalStackCluster) (calls : List Call) :
    (reconcileCreate env fw mc calls).calls
      = calls ++ (createRawMachineIfNotExists env fw mc).calls := by
  unfold reconcileCreate
  simp only []
  repeat' split
  all_goals rfl

end FirewallCtl

/-! ## Claims about the cluster reconciler -/

namespace ClusterCtl

/-- C1, counterexample: on a freshly created cluster whose provisioning calls
all succeed, one run of `reconcile` issues three state-changing provisioning
calls (NetworkAllocate, IPAllocate, FirewallCreate), and one run of
`reconcileDelete` on the reconciled cluster issues two (MachineDelete,
NetworkFree); neither stays within one. -/
theorem reconcile_issues_three_state_changing_calls :
    stateChangingCalls (reconcile exEnv exCluster).calls
        = [.NetworkAllocate, .IPAllocate, .FirewallCreate] ∧
      ¬ (stateChangingCalls (reconcile exEnv exCluster).calls).length ≤ 1 ∧
      stateChangingCalls (reconcileDelete exEnv exOwner exDeleting).calls
        = [.MachineDelete, .NetworkFree] ∧
      ¬ (stateChangingCalls (reconcileDelete exEnv exOwner exDeleting).calls).length ≤ 1 := by
  decide

/-- C1, amended: for every cluster record and every outcome of the external
calls, one run of `reconcile` issues its state-changing provisioning calls as a
sublist of NetworkAllocate, IPAllocate, FirewallCreate (each at most once, in
this order, at most three), and one run of `reconcileDelete` issues them as a
sublist of MachineDelete, NetworkFree (each at most once, at most two). -/
theorem state_changing_calls_once_each_in_order (env : Env) (cl : CapiCluster)
    (c : MetalStackCluster) :
    (stateChangingCalls (reconcile env c).calls).Sublist
        [.NetworkAllocate, .IPAllocate, .FirewallCreate] ∧
      (stateChangingCalls (reconcile env c).calls).length ≤ 3 ∧
      (stateChangingCalls (reconcileDelete env cl c).calls).Sublist
        [.MachineDelete, .NetworkFree] ∧
      (stateChangingCalls (reconcileDelete env cl c).calls).length ≤ 2 := by
  have h1 : (stateChangingCalls (reconcile env c).calls).Sublist
      [.NetworkAllocate, .IPAllocate, .FirewallCreate] :=
    (reconcile_kinds env c).filter CallKind.stateChanging
  have h2 : (stateChangingCalls (reconcileDelete env cl c).calls).Sublist
      [.MachineDelete, .NetworkFree] :=
    (reconcileDelete_kinds env cl c).filter CallKind.stateChanging
  exact ⟨h1, h1.length_le, h2, h2.length_le⟩

/-- C2: for a cluster under deletion whose machine count succeeds and is
positive, `reconcileDelete` issues the machine list and then exactly one bulk
delete-by-label call, no MachineDelete, IPList or NetworkFree call, leaves the
record (so its finalizers) untouched, and returns the short-delay requeue
directive without error when the bulk delete succeeds. -/
theorem reconcileDelete_machines_present (env : Env) (cl : CapiCluster)
    (c : MetalStackCluster) (hList : env.List = none) (hCount : 0 < env.Items) :
    (reconcileDelete env cl c).calls
        = [Call.List cl.Namespace cl.Name, Call.DeleteAllOf cl.Namespace cl.Name] ∧
      (kinds (reconcileDelete env cl c).calls).count .DeleteAllOf = 1 ∧
      CallKind.MachineDelete ∉ kinds (reconcileDelete env cl c).calls ∧
      CallKind.IPList ∉ kinds (reconcileDelete env cl c).calls ∧
      CallKind.NetworkFree ∉ kinds (reconcileDelete env cl c).calls ∧
      (reconcileDelete env cl c).obj.Finalizers = c.Finalizers ∧
      (env.DeleteAllOf = none →
        (reconcileDelete env cl c).out = .returned (env.requeueWithSmallDelay, none)) := by
  have hcalls : (reconcileDelete env cl c).calls
      = [Call.List cl.Namespace cl.Name, Call.DeleteAllOf cl.Namespace cl.Name] := by
    unfold reconcileDelete countMachines deleteMachines
    cases hD : env.DeleteAllOf <;> simp [hList, hCount]
  have hobj : (reconcileDelete env cl c).obj = c := by
    unfold reconcileDelete countMachines deleteMachines
    cases hD : env.DeleteAllOf <;> simp [hList, hCount]
  refine ⟨hcalls, ?_, ?_, ?_, ?_, ?_, ?_⟩
  · rw [hcalls]; simp [kinds, Call.kind]
  · rw [hcalls]; simp [kinds, Call.kind]
  · rw [hcalls]; simp [kinds, Call.kind]
  · rw [hcalls]; simp [kinds, Call.kind]
  · rw [hobj]
  · intro hD
    unfold reconcileDelete countMachines deleteMachines
    simp [hList, hCount, hD]

/-- C2, witness: three workload machines are still present and the finalizer is
attached. -/
theorem reconcileDelete_machines_present_witness :
    MetalStackClusterFinalizer ∈ exDeleting.Finalizers ∧
      (reconcileDelete { exEnv with Items := 3 } exOwner exDeleting).calls
        = [Call.List "default" "c1", Call.DeleteAllOf "default" "c1"] ∧
      (reconcileDelete { exEnv with Items := 3 } exOwner exDeleting).obj.Finalizers
        = exDeleting.Finalizers ∧
      (reconcileDelete { exEnv with Items := 3 } exOwner exDeleting).out
        = .returned ({ RequeueAfter := 2000000000 }, none) :=
  have h := reconcileDelete_machines_present { exEnv with Items := 3 } exOwner exDeleting
    rfl (by decide)
  ⟨by decide, h.1, h.2.2.2.2.2.1, h.2.2.2.2.2.2 rfl⟩

end ClusterCtl

/-! ## Claims about the firewall reconciler -/

namespace FirewallCtl

/-- C3, counterexample: the firewall record has a parseable provider identity,
the machine found for it reports no allocation record, and `reconcile` issues a
create-machine call (AllocateFirewall). -/
theorem reconcile_creates_despite_parseable_identity :
    exEnv.ParsedProviderID exFirewall.Spec = .ok "m-1" ∧
      CallKind.AllocateFirewall ∈ kinds (reconcile exEnv exFirewall exCluster).calls :=
  ⟨rfl, by decide⟩

/-- C3, amended: for a firewall record whose provider identity parses to `pid`,
`reconcile` issues no create-machine call whenever the machine found for that
identity reports an allocation record; when it reports none, `reconcile` issues
at most one create-machine call, and that request carries `pid` as its UUID. -/
theorem reconcile_create_only_without_allocation (env : Env) (fw : MetalStackFirewall)
    (mc : MetalStackCluster) (pid : String)
    (hpid : env.ParsedProviderID fw.Spec = .ok pid) :
    (∀ resp payload alloc, env.FindMachine.resp = some resp →
        resp.Payload = some payload → payload.Allocation = some alloc →
        CallKind.AllocateFirewall ∉ kinds (reconcile env fw mc).calls) ∧
      (∀ body, Call.AllocateFirewall body ∈ (reconcile env fw mc).calls →
        body.UUID = pid) ∧
      (kinds (reconcile env fw mc).calls).count .AllocateFirewall ≤ 1 := by
  refine ⟨?_, ?_, ?_⟩
  · intro resp payload alloc hresp hpay halloc
    unfold reconcile
    simp only [hpid, hresp, hpay, halloc]
    repeat' split
    all_goals simp [kinds, Call.kind]
  · intro body hmem
    unfold reconcile at hmem
    simp only [hpid] at hmem
    repeat' split at hmem
    all_goals try simp at hmem
    all_goals
      rw [reconcileCreate_calls] at hmem
      simp at hmem
      exact createRawMachineIfNotExists_uuid env
        { fw with Finalizers := AddFinalizer fw.Finalizers env.MetalStackFirewallFinalizer }
        mc pid hpid body hmem
  · unfold reconcile
    simp only [hpid]
    repeat' split
    all_goals first
      | (rw [reconcileCreate_calls, kinds_append]
         rcases createRawMachineIfNotExists_kinds env
           { fw with Finalizers := AddFinalizer fw.Finalizers env.MetalStackFirewallFinalizer }
           mc with h | h <;> rw [h] <;> simp [kinds, Call.kind])
      | simp [kinds, Call.kind]

/-- C3, witness: the parseable identity `m-1` with an allocation record. -/
theorem reconcile_create_only_without_allocation_witness :
    exEnvAllocated.ParsedProviderID exFirewall.Spec = .ok "m-1" ∧
      CallKind.AllocateFirewall ∉ kinds (reconcile exEnvAllocated exFirewall exCluster).calls ∧
      (∀ body, Call.AllocateFirewall body ∈ (reconcile exEnv exFirewall exCluster).calls →
        body.UUID = "m-1") :=
  ⟨rfl,
    (reconcile_create_only_without_allocation exEnvAllocated exFirewall exCluster "m-1"
      rfl).1 _ _ _ rfl rfl rfl,
    (reconcile_create_only_without_allocation exEnv exFirewall exCluster "m-1" rfl).2.1⟩

end FirewallCtl

/-! ## The patch on exit -/

namespace ClusterCtl

/-- In the cluster reconciler a failed patch on exit always reaches the driver
as an error that wraps the patch error. -/
theorem deferredPatch_surfaces_patch_error (env : Env) (e : Error)
    (hPatch : env.Patch = some e) (err : Option Error) :
    deferredPatch env err = some (.errorf "patch: " e) := by
  unfold deferredPatch assign
  simp only [hPatch]

end ClusterCtl

/-- C4, the code at the failing inputs.  Firewall reconciler: the forward path
succeeds, the patch on exit fails, and `Reconcile` still returns a nil error
(the deferred closure writes a local variable, the results are unnamed).
Cluster reconciler: the owner lookup fails, the patch on exit fails, and the
error returned is only the wrapped patch error: neither its chain nor its text
carries the earlier error. -/
theorem patch_failure_lost_or_overwrites :
    FirewallCtl.exEnvPatchFails.Patch = some (.mk "conflict") ∧
      Call.Patch ∈ (FirewallCtl.Reconcile FirewallCtl.exEnvPatchFails FirewallCtl.exFirewall).calls ∧
      (FirewallCtl.Reconcile FirewallCtl.exEnvPatchFails FirewallCtl.exFirewall).out
        = .returned ({}, none) ∧
      (ClusterCtl.reconcileBody ClusterCtl.exEnvOwnerAndPatchFail ClusterCtl.exCluster).out
        = .returned ({}, some (.errorf "get OwnerCluster: " (.mk "owner lookup timed out"))) ∧
      (ClusterCtl.Reconcile ClusterCtl.exEnvOwnerAndPatchFail ClusterCtl.exCluster).out
        = .returned ({}, some (.errorf "patch: " (.mk "conflict"))) ∧
      Error.carries (.errorf "patch: " (.mk "conflict"))
        (.errorf "get OwnerCluster: " (.mk "owner lookup timed out")) = false ∧
      (Error.errorf "patch: " (.mk "conflict")).text = "patch: conflict" := by
  decide

namespace FirewallCtl

/-- Whenever the provider identity parses and `FindMachine` hands back no
response, `reconcile` ends in a nil-pointer panic. -/
theorem reconcile_panics_without_response (env : Env) (fw : MetalStackFirewall)
    (mc : MetalStackCluster) (pid : String)
    (hpid : env.ParsedProviderID fw.Spec = .ok pid)
    (hresp : env.FindMachine.resp = none) :
    (reconcile env fw mc).out = .panicked := by
  unfold reconcile
  simp only [hpid, hresp]

/-- C5, the code at the failing input: the provider identity parses,
`FindMachine` returns an error and no response, and `reconcile` ends in a
nil-pointer panic right after that call instead of returning. -/
theorem reconcile_panics_when_FindMachine_fails :
    exEnvFindMachineFails.ParsedProviderID exFirewall.Spec = .ok "m-1" ∧
      exEnvFindMachineFails.FindMachine
        = ⟨none, some (.mk "connection refused")⟩ ∧
      (reconcile exEnvFindMachineFails exFirewall exCluster).calls
        = [Call.FindMachine "m-1"] ∧
      (reconcile exEnvFindMachineFails exFirewall exCluster).out = .panicked :=
  ⟨rfl, rfl, by decide, by decide⟩

end FirewallCtl

/-! ## The cluster reconciler: what each step leaves in the record -/

namespace ClusterCtl

theorem allocateNetwork_status (env : Env) (c : MetalStackCluster) :
    (allocateNetwork env c).obj.Status = c.Status := by
  unfold allocateNetwork
  simp only []
  repeat' split
  all_goals rfl

theorem allocateControlPlaneIP_spec (env : Env) (c : MetalStackCluster) :
    (allocateControlPlaneIP env c).obj.Spec = c.Spec := by
  unfold allocateControlPlaneIP
  simp only []
  repeat' split
  all_goals rfl

theorem allocateControlPlaneIP_status (env : Env) (c : MetalStackCluster) :
    (allocateControlPlaneIP env c).obj.Status.Ready = c.Status.Ready ∧
      (allocateControlPlaneIP env c).obj.Status.FirewallReady = c.Status.FirewallReady ∧
      (c.Status.ControlPlaneIPAllocated = true →
        (allocateControlPlaneIP env c).obj.Status.ControlPlaneIPAllocated = true) := by
  unfold allocateControlPlaneIP
  simp only []
  repeat' split
  all_goals simp

theorem createFirewall_privateNetworkID (env : Env) (c : MetalStackCluster) :
    (createFirewall env c).obj.Spec.PrivateNetworkID = c.Spec.PrivateNetworkID := by
  unfold createFirewall
  simp only []
  repeat' split
  all_goals rfl

theorem createFirewall_status (env : Env) (c : MetalStackCluster) :
    (createFirewall env c).obj.Status = c.Status := by
  unfold createFirewall
  simp only []
  repeat' split
  all_goals rfl

theorem reconcileDelete_status (env : Env) (cl : CapiCluster) (c : MetalStackCluster) :
    (reconcileDelete env cl c).obj.Status = c.Status := by
  unfold reconcileDelete countMachines deleteMachines deleteFirewall
  cases hL : env.List <;> cases hD : env.DeleteAllOf <;>
    cases hP : env.ParsedProviderID c.Spec.Firewall <;> cases hM : env.MachineDelete <;>
    simp only [] <;> repeat' split
  all_goals rfl

theorem createFirewall_no_other_kind (env : Env) (c : MetalStackCluster) (k : CallKind)
    (hk : k ≠ .FirewallCreate) : k ∉ kinds (createFirewall env c).calls := by
  rcases createFirewall_kinds env c with h | h <;> rw [h] <;> simp [hk]

/-- An invariant of the record is kept by `reconcile` when it holds once the
finalizer is attached and every step that `reconcile` may take keeps it; each
step is taken only under its guard. -/
theorem reconcile_obj_invariant (env : Env) (c : MetalStackCluster)
    (I : MetalStackCluster → Prop)
    (h0 : I { c with Finalizers := AddFinalizer c.Finalizers MetalStackClusterFinalizer })
    (hNA : ∀ x, I x → x.Spec.PrivateNetworkID = none → I (allocateNetwork env x).obj)
    (hIP : ∀ x, I x → I (allocateControlPlaneIP env x).obj)
    (hFW : ∀ x, I x → I (createFirewall env x).obj)
    (hFR : ∀ x, I x → I { x with Status := { x.Status with FirewallReady := true } })
    (hR : ∀ x, I x → I { x with Status := { x.Status with Ready := true } }) :
    I (reconcile env c).obj := by
  unfold reconcile
  simp only []
  repeat' split
  all_goals
    repeat (first
      | exact h0
      | (apply hR)
      | (apply hFR)
      | (apply hFW)
      | (apply hIP)
      | (apply hNA _ _ (by assumption)))

/-- C6: for a cluster whose `privateNetworkID` is already set, `reconcile`
issues no NetworkAllocate call and leaves `privateNetworkID` at its prior value,
whatever the other external calls return. -/
theorem reconcile_keeps_private_network (env : Env) (c : MetalStackCluster)
    (id : String) (hset : c.Spec.PrivateNetworkID = some id) :
    CallKind.NetworkAllocate ∉ kinds (reconcile env c).calls ∧
      (reconcile env c).obj.Spec.PrivateNetworkID = some id := by
  have h2 := allocateControlPlaneIP_kinds env
  have h3 : ∀ x, CallKind.NetworkAllocate ∉ kinds (createFirewall env x).calls :=
    fun x => createFirewall_no_other_kind env x _ (by decide)
  constructor
  · unfold reconcile
    simp only [hset, reduceCtorEq, ↓reduceIte]
    repeat' split
    all_goals simp [kinds_append, kinds_nil, h2, h3]
  · apply reconcile_obj_invariant env c (fun x => x.Spec.PrivateNetworkID = some id)
    · exact hset
    · intro x hx hnone
      rw [hx] at hnone
      cases hnone
    · intro x hx
      rw [allocateControlPlaneIP_spec]
      exact hx
    · intro x hx
      rw [createFirewall_privateNetworkID]
      exact hx
    · intro x hx
      exact hx
    · intro x hx
      exact hx

/-- C6, witness: the reconciled record keeps its network `net-1`. -/
theorem reconcile_keeps_private_network_witness :
    exReady.Spec.PrivateNetworkID = some "net-1" ∧
      CallKind.NetworkAllocate ∉ kinds (reconcile exEnv exReady).calls ∧
      (reconcile exEnv exReady).obj.Spec.PrivateNetworkID = some "net-1" :=
  ⟨rfl, reconcile_keeps_private_network exEnv exReady "net-1" rfl⟩

/-- C7: the status flags `controlPlaneIPAllocated`, `firewallReady` and `ready`
are one-way latches: for every record and every outcome of the external calls,
a flag that is true before `reconcile` or `reconcileDelete` runs is true in the
record the run leaves behind. -/
theorem status_flags_latched (env : Env) (cl : CapiCluster) (c : MetalStackCluster) :
    (c.Status.ControlPlaneIPAllocated = true →
        (reconcile env c).obj.Status.ControlPlaneIPAllocated = true) ∧
      (c.Status.FirewallReady = true →
        (reconcile env c).obj.Status.FirewallReady = true) ∧
      (c.Status.Ready = true → (reconcile env c).obj.Status.Ready = true) ∧
      (c.Status.ControlPlaneIPAllocated = true →
        (reconcileDelete env cl c).obj.Status.ControlPlaneIPAllocated = true) ∧
      (c.Status.FirewallReady = true →
        (reconcileDelete env cl c).obj.Status.FirewallReady = true) ∧
      (c.Status.Ready = true → (reconcileDelete env cl c).obj.Status.Ready = true) := by
  have sd := reconcileDelete_status env cl c
  refine ⟨?_, ?_, ?_, ?_, ?_, ?_⟩
  · intro h
    apply reconcile_obj_invariant env c (fun x => x.Status.ControlPlaneIPAllocated = true)
    · exact h
    · intro x hx _
      rw [allocateNetwork_status]
      exact hx
    · intro x hx
      exact (allocateControlPlaneIP_status env x).2.2 hx
    · intro x hx
      rw [createFirewall_status]
      exact hx
    · intro x hx
      exact hx
    · intro x hx
      exact hx
  · intro h
    apply reconcile_obj_invariant env c (fun x => x.Status.FirewallReady = true)
    · exact h
    · intro x hx _
      rw [allocateNetwork_status]
      exact hx
    · intro x hx
      rw [(allocateControlPlaneIP_status env x).2.1]
      exact hx
    · intro x hx
      rw [createFirewall_status]
      exact hx
    · intro x _
      rfl
    · intro x hx
      exact hx
  · intro h
    apply reconcile_obj_invariant env c (fun x => x.Status.Ready = true)
    · exact h
    · intro x hx _
      rw [allocateNetwork_status]
      exact hx
    · intro x hx
      rw [(allocateControlPlaneIP_status env x).1]
      exact hx
    · intro x hx
      rw [createFirewall_status]
      exact hx
    · intro x hx
      exact hx
    · intro x _
      rfl
  · intro h; rw [sd]; exact h
  · intro h; rw [sd]; exact h
  · intro h; rw [sd]; exact h

/-- C7, witness: on the fully reconciled record all three flags stay true on
both paths. -/
theorem status_flags_latched_witness :
    exReady.Status.ControlPlaneIPAllocated = true ∧
      exReady.Status.FirewallReady = true ∧ exReady.Status.Ready = true ∧
      (reconcile exEnv exReady).obj.Status.ControlPlaneIPAllocated = true ∧
      (reconcile exEnv exReady).obj.Status.FirewallReady = true ∧
      (reconcile exEnv exReady).obj.Status.Ready = true ∧
      (reconcileDelete exEnv exOwner exReady).obj.Status.ControlPlaneIPAllocated = true ∧
      (reconcileDelete exEnv exOwner exReady).obj.Status.FirewallReady = true ∧
      (reconcileDelete exEnv exOwner exReady).obj.Status.Ready = true :=
  have h := status_flags_latched exEnv exOwner exReady
  ⟨rfl, rfl, rfl, h.1 rfl, h.2.1 rfl, h.2.2.1 rfl, h.2.2.2.1 rfl, h.2.2.2.2.1 rfl,
    h.2.2.2.2.2 rfl⟩

/-- Either `reconcileDelete` leaves the record as it found it, or it called
NetworkFree, that call succeeded, and it returned without error. -/
theorem reconcileDelete_obj (env : Env) (cl : CapiCluster) (c : MetalStackCluster) :
    (reconcileDelete env cl c).obj = c ∨
      (CallKind.NetworkFree ∈ kinds (reconcileDelete env cl c).calls ∧
        env.NetworkFree = none ∧
        (reconcileDelete env cl c).out = .returned ({}, none)) := by
  unfold reconcileDelete countMachines deleteMachines deleteFirewall
  cases hL : env.List <;> cases hD : env.DeleteAllOf <;>
    cases hP : env.ParsedProviderID c.Spec.Firewall <;> cases hM : env.MachineDelete <;>
    cases hN : env.NetworkFree <;>
    simp only [] <;> repeat' split
  all_goals first
    | (left; first | rfl | trivial)
    | (right; simp [kinds, Call.kind])

/-- C9: for a cluster under deletion with machine count 0 and a successful
firewall delete, an IP list with at least one IP makes `reconcileDelete` return
the short-delay requeue directive without error, issue no NetworkFree call and
leave the finalizers as they were; and in every invocation, the finalizer is
removed only if NetworkFree was called and succeeded. -/
theorem reconcileDelete_waits_for_ips (env : Env) (cl : CapiCluster)
    (c : MetalStackCluster) :
    (∀ pid resp, env.List = none → env.Items = 0 →
        env.ParsedProviderID c.Spec.Firewall = .ok pid → env.MachineDelete = none →
        env.IPList.err = none → env.IPList.resp = some resp → 0 < resp.IPs.length →
        (reconcileDelete env cl c).out = .returned (env.requeueWithSmallDelay, none) ∧
          CallKind.NetworkFree ∉ kinds (reconcileDelete env cl c).calls ∧
          (reconcileDelete env cl c).obj.Finalizers = c.Finalizers) ∧
      (MetalStackClusterFinalizer ∈ c.Finalizers →
        MetalStackClusterFinalizer ∉ (reconcileDelete env cl c).obj.Finalizers →
        CallKind.NetworkFree ∈ kinds (reconcileDelete env cl c).calls ∧
          env.NetworkFree = none) := by
  constructor
  · intro pid resp hL hI hP hM hE hR hlen
    unfold reconcileDelete countMachines deleteMachines deleteFirewall
    simp only [hL, hI, hP, hM, hE, hR, gt_iff_lt, Nat.lt_irrefl, hlen, ↓reduceIte]
    simp [kinds, Call.kind]
  · intro hin hout
    rcases reconcileDelete_obj env cl c with h | h
    · rw [h] at hout
      exact absurd hin hout
    · exact ⟨h.1, h.2.1⟩

/-- C9, witness: with one IP left the run waits and keeps the finalizer; with
no IP left and a successful NetworkFree the finalizer is removed. -/
theorem reconcileDelete_waits_for_ips_witness :
    (reconcileDelete exEnvIPsLeft exOwner exDeleting).out
        = .returned ({ RequeueAfter := 2000000000 }, none) ∧
      CallKind.NetworkFree ∉ kinds (reconcileDelete exEnvIPsLeft exOwner exDeleting).calls ∧
      (reconcileDelete exEnvIPsLeft exOwner exDeleting).obj.Finalizers
        = [MetalStackClusterFinalizer] ∧
      (reconcileDelete exEnv exOwner exDeleting).obj.Finalizers = [] ∧
      CallKind.NetworkFree ∈ kinds (reconcileDelete exEnv exOwner exDeleting).calls ∧
      exEnv.NetworkFree = none :=
  have h1 := (reconcileDelete_waits_for_ips exEnvIPsLeft exOwner exDeleting).1
    "fw-1" ⟨["212.34.83.13"]⟩ rfl rfl rfl rfl rfl rfl (by decide)
  have h2 := (reconcileDelete_waits_for_ips exEnv exOwner exDeleting).2
    (by decide) (by decide)
  ⟨h1.1, h1.2.1, h1.2.2, by decide, h2.1, h2.2⟩

end ClusterCtl

namespace FirewallCtl

/-- C8: for a firewall under deletion whose provider identity does not parse,
`reconcileDelete` returns the wrapped parse error, issues no call at all
(neither FindFirewalls nor DeleteMachine), and leaves the record, so the
finalizer, as it found it. -/
theorem firewall_reconcileDelete_unparseable (env : Env) (fw : MetalStackFirewall)
    (mc : MetalStackCluster) (e : Error)
    (hparse : env.ParsedProviderID fw.Spec = .error e) :
    (reconcileDelete env fw mc).out
        = .returned ({}, some (.errorf "parse provider ID: " e)) ∧
      (reconcileDelete env fw mc).calls = [] ∧
      (reconcileDelete env fw mc).obj.Finalizers = fw.Finalizers := by
  unfold reconcileDelete
  simp only [hparse]
  simp

/-- C8, witness: a firewall without provider identity, finalizer attached. -/
theorem firewall_reconcileDelete_unparseable_witness :
    exEnv.MetalStackFirewallFinalizer ∈ exUnparseable.Finalizers ∧
      (reconcileDelete exEnv exUnparseable exCluster).out
        = .returned ({}, some (.errorf "parse provider ID: " (.mk "providerID is not set"))) ∧
      (reconcileDelete exEnv exUnparseable exCluster).calls = [] ∧
      (reconcileDelete exEnv exUnparseable exCluster).obj.Finalizers
        = exUnparseable.Finalizers :=
  ⟨by decide,
    firewall_reconcileDelete_unparseable exEnv exUnparseable exCluster
      (.mk "providerID is not set") rfl⟩

/-- C10: for a firewall whose provider identity parses, whose machine reports
an allocation record and whose FindFirewall call succeeds with success flag
`s`, `reconcile` issues no create-machine call, sets `status.ready` to `s`, and
returns without error a directive whose requeue flag is the negation of `s`. -/
theorem reconcile_latches_allocation_success (env : Env) (fw : MetalStackFirewall)
    (mc : MetalStackCluster) (pid : String) (resp : FindMachineOK)
    (payload : V1MachineResponse) (alloc : V1MachineAllocation)
    (resp2 : FindFirewallOK) (payload2 : V1FirewallResponse)
    (alloc2 : V1MachineAllocation) (s : Bool)
    (hpid : env.ParsedProviderID fw.Spec = .ok pid)
    (hresp : env.FindMachine.resp = some resp) (hpay : resp.Payload = some payload)
    (halloc : payload.Allocation = some alloc)
    (herr2 : env.FindFirewall.err = none) (hresp2 : env.FindFirewall.resp = some resp2)
    (hpay2 : resp2.Payload = some payload2) (halloc2 : payload2.Allocation = some alloc2)
    (hs : alloc2.Succeeded = some s) :
    CallKind.AllocateFirewall ∉ kinds (reconcile env fw mc).calls ∧
      (reconcile env fw mc).obj.Status.Ready = s ∧
      (reconcile env fw mc).out = .returned ({ Requeue := !s }, none) := by
  unfold reconcile
  simp only [hpid, hresp, hpay, halloc, herr2, hresp2, hpay2, halloc2, hs]
  simp [kinds, Call.kind]

/-- C10, witness: the allocation of machine `m-1` has succeeded. -/
theorem reconcile_latches_allocation_success_witness :
    CallKind.AllocateFirewall ∉ kinds (reconcile exEnvAllocated exFirewall exCluster).calls ∧
      (reconcile exEnvAllocated exFirewall exCluster).obj.Status.Ready = true ∧
      (reconcile exEnvAllocated exFirewall exCluster).out
        = .returned ({ Requeue := false }, none) :=
  reconcile_latches_allocation_success exEnvAllocated exFirewall exCluster "m-1"
    ⟨some ⟨some ⟨some true⟩⟩⟩ ⟨some ⟨some true⟩⟩ ⟨some true⟩
    ⟨some { ID := some "m-1", Allocation := some ⟨some true⟩ }⟩
    { ID := some "m-1", Allocation := some ⟨some true⟩ } ⟨some true⟩ true
    rfl rfl rfl rfl rfl rfl rfl rfl rfl

end FirewallCtl

/-! ## Deleting a firewall -/

theorem not_mem_RemoveFinalizer (fs : List String) (f : String) :
    f ∉ RemoveFinalizer fs f := by
  simp [RemoveFinalizer]

namespace FirewallCtl

/-- C11: for a firewall under deletion whose provider identity parses to `pid`
and whose FindFirewalls call succeeds with `k` matches, DeleteMachine is called
once with `pid` when `k = 1` and not at all otherwise; when `k` is not 1 or the
delete call does not fail, the finalizer is removed and the result is
no-requeue without error; when the delete call fails, the finalizers stay as
they were and an error is returned. -/
theorem firewall_reconcileDelete_by_matches (env : Env) (fw : MetalStackFirewall)
    (mc : MetalStackCluster) (pid : String) (resp : FindFirewallsOK)
    (hpid : env.ParsedProviderID fw.Spec = .ok pid)
    (herr : env.FindFirewalls.err = none)
    (hresp : env.FindFirewalls.resp = some resp) :
    ((reconcileDelete env fw mc).calls.count (Call.DeleteMachine pid)
        = if resp.Payload.length = 1 then 1 else 0) ∧
      ((kinds (reconcileDelete env fw mc).calls).count .DeleteMachine
        = if resp.Payload.length = 1 then 1 else 0) ∧
      ((resp.Payload.length ≠ 1 ∨ env.DeleteMachine = none) →
        env.MetalStackFirewallFinalizer ∉ (reconcileDelete env fw mc).obj.Finalizers ∧
          (reconcileDelete env fw mc).obj.Finalizers
            = RemoveFinalizer fw.Finalizers env.MetalStackFirewallFinalizer ∧
          (reconcileDelete env fw mc).out = .returned ({}, none)) ∧
      (resp.Payload.length = 1 → ∀ e, env.DeleteMachine = some e →
        (reconcileDelete env fw mc).obj.Finalizers = fw.Finalizers ∧
          (reconcileDelete env fw mc).out
            = .returned ({}, some (.errorf
                ("failed to delete the MetalStackFirewall " ++ fw.Name ++ ": ") e))) := by
  have hrm := not_mem_RemoveFinalizer fw.Finalizers env.MetalStackFirewallFinalizer
  unfold reconcileDelete
  simp only [hpid, herr, hresp]
  by_cases hk : resp.Payload.length = 1
  · cases hD : env.DeleteMachine <;> simp [hk, kinds, Call.kind, hrm]
  · simp [hk, kinds, Call.kind, hrm]

/-- C11, witness: one match and a successful delete removes the finalizer after
one DeleteMachine call; no match removes it without any delete call; a failed
delete keeps it. -/
theorem firewall_reconcileDelete_by_matches_witness :
    (reconcileDelete exEnv exFirewallDeleting exCluster).calls.count
        (Call.DeleteMachine "m-1") = 1 ∧
      (reconcileDelete exEnv exFirewallDeleting exCluster).obj.Finalizers = [] ∧
      (reconcileDelete exEnvNoMatch exFirewallDeleting exCluster).calls.count
        (Call.DeleteMachine "m-1") = 0 ∧
      (reconcileDelete exEnvNoMatch exFirewallDeleting exCluster).out
        = .returned ({}, none) ∧
      (reconcileDelete exEnvDeleteFails exFirewallDeleting exCluster).obj.Finalizers
        = exFirewallDeleting.Finalizers :=
  have h1 := firewall_reconcileDelete_by_matches exEnv exFirewallDeleting exCluster
    "m-1" ⟨[{ ID := some "m-1" }]⟩ rfl rfl rfl
  have h0 := firewall_reconcileDelete_by_matches exEnvNoMatch exFirewallDeleting exCluster
    "m-1" ⟨[]⟩ rfl rfl rfl
  have h2 := firewall_reconcileDelete_by_matches exEnvDeleteFails exFirewallDeleting
    exCluster "m-1" ⟨[{ ID := some "m-1" }]⟩ rfl rfl rfl
  ⟨h1.1, by decide, h0.1, (h0.2.2.1 (Or.inl (by decide))).2.2,
    (h2.2.2.2 rfl (.mk "machine is locked") rfl).1⟩

end FirewallCtl

/-! ## The allocate-network request and the network on deletion -/

namespace ClusterCtl

/-- The request `allocateNetwork` sends, for every record: description and
cluster-id label are the cluster name, partition and project are those of the
spec, and the name is the partition of the spec. -/
theorem allocateNetwork_request (env : Env) (c : MetalStackCluster) :
    (allocateNetwork env c).calls =
      [Call.NetworkAllocate
        { Description := c.Name
          Labels := [(env.tagClusterID, c.Name)]
          Name := c.Spec.Partition
          PartitionID := c.Spec.Partition
          ProjectID := c.Spec.ProjectID }] := by
  unfold allocateNetwork
  simp only []
  repeat' split
  all_goals rfl

/-- C13, the code at the failing input: for the cluster `c1` in partition `p1`
with `privateNetworkID` unset, the request of `allocateNetwork` has description
`c1`, project `proj1`, partition `p1` and the cluster-id label `c1`, but its
name is the partition `p1`, not the cluster name `c1`. -/
theorem allocateNetwork_names_network_after_partition :
    exCluster.Name = "c1" ∧ exCluster.Spec.PrivateNetworkID = none ∧
      (allocateNetwork exEnv exCluster).calls =
        [Call.NetworkAllocate
          { Description := "c1"
            Labels := [("cluster.metal-stack.io/id", "c1")]
            Name := "p1"
            PartitionID := "p1"
            ProjectID := "proj1" }] ∧
      exCluster.Spec.Partition = "p1" ∧ exCluster.Spec.Partition ≠ exCluster.Name := by
  decide

/-- Whenever the firewall delete succeeds with no machines and no IPs left and
`privateNetworkID` is unset, `reconcileDelete` ends in a nil-pointer panic. -/
theorem reconcileDelete_panics_without_network (env : Env) (cl : CapiCluster)
    (c : MetalStackCluster) (pid : String) (resp : IPListResponse)
    (hL : env.List = none) (hI : env.Items = 0)
    (hP : env.ParsedProviderID c.Spec.Firewall = .ok pid) (hM : env.MachineDelete = none)
    (hE : env.IPList.err = none) (hR : env.IPList.resp = some resp)
    (hlen : resp.IPs = []) (hN : c.Spec.PrivateNetworkID = none) :
    (reconcileDelete env cl c).out = .panicked := by
  unfold reconcileDelete countMachines deleteMachines deleteFirewall
  simp [hL, hI, hP, hM, hE, hR, hlen, hN]

/-- C14, the code at the failing input: the record has the parseable firewall
identity `fw-1` and no `privateNetworkID`, the machine count is 0, MachineDelete
succeeds and the IP list is empty; `reconcileDelete` ends in a nil-pointer
panic after IPList, without calling NetworkFree and without returning. -/
theorem reconcileDelete_panics_on_unset_network :
    exEnv.ParsedProviderID exDeletingWithoutNetwork.Spec.Firewall = .ok "fw-1" ∧
      exDeletingWithoutNetwork.Spec.PrivateNetworkID = none ∧
      exEnv.Items = 0 ∧ exEnv.MachineDelete = none ∧
      exEnv.IPList = ⟨some ⟨[]⟩, none⟩ ∧
      (reconcileDelete exEnv exOwner exDeletingWithoutNetwork).calls
        = [Call.List "default" "c1", Call.MachineDelete "fw-1", Call.IPList] ∧
      (reconcileDelete exEnv exOwner exDeletingWithoutNetwork).out = .panicked :=
  ⟨rfl, rfl, rfl, rfl, rfl, by decide, by decide⟩

end ClusterCtl

/-! ## When `status.ready` is latched -/

namespace ClusterCtl

theorem allocateNetwork_returned (env : Env) (x : MetalStackCluster)
    (h : (allocateNetwork env x).out = .returned none) :
    ∃ resp net, env.NetworkAllocate.resp = some resp ∧ resp.Network = some net ∧
      (allocateNetwork env x).obj.Spec.PrivateNetworkID = net.ID := by
  unfold allocateNetwork at h ⊢
  simp only [] at h ⊢
  repeat' split at h
  all_goals simp_all

theorem allocateControlPlaneIP_returned (env : Env) (x : MetalStackCluster)
    (h : (allocateControlPlaneIP env x).out = .returned none) :
    (allocateControlPlaneIP env x).obj.Status.ControlPlaneIPAllocated = true := by
  unfold allocateControlPlaneIP at h ⊢
  simp only [] at h ⊢
  repeat' split at h
  all_goals simp_all

theorem createFirewall_returned (env : Env) (x : MetalStackCluster)
    (h : (createFirewall env x).out = .returned none) :
    x.Spec.PrivateNetworkID ≠ none := by
  unfold createFirewall at h
  simp only [] at h
  repeat' split at h
  all_goals simp_all

set_option linter.unusedTactic false in
/-- Either `reconcile` leaves `status.ready` as it was, or it returned the empty
directive without error with both step flags true and with `privateNetworkID`
set, the one exception being a record that came in with `firewallReady` true and
no `privateNetworkID` while NetworkAllocate answered with a network without ID. -/
theorem reconcile_ready_cases (env : Env) (c : MetalStackCluster) :
    (reconcile env c).obj.Status.Ready = c.Status.Ready ∨
      ((reconcile env c).out = .returned ({}, none) ∧
        (reconcile env c).obj.Status.ControlPlaneIPAllocated = true ∧
        (reconcile env c).obj.Status.FirewallReady = true ∧
        ((reconcile env c).obj.Spec.PrivateNetworkID ≠ none ∨
          (c.Spec.PrivateNetworkID = none ∧ c.Status.FirewallReady = true ∧
            ∃ resp net, env.NetworkAllocate.resp = some resp ∧
              resp.Network = some net ∧ net.ID = none))) := by
  have s1 := allocateNetwork_status env
  have s2r : ∀ x, (allocateControlPlaneIP env x).obj.Status.Ready = x.Status.Ready :=
    fun x => (allocateControlPlaneIP_status env x).1
  have s2f : ∀ x, (allocateControlPlaneIP env x).obj.Status.FirewallReady
      = x.Status.FirewallReady := fun x => (allocateControlPlaneIP_status env x).2.1
  have s2s := allocateControlPlaneIP_spec env
  have s3 := createFirewall_status env
  have s3p := createFirewall_privateNetworkID env
  unfold reconcile
  simp only []
  cases hN : c.Spec.PrivateNetworkID <;> cases hI : c.Status.ControlPlaneIPAllocated <;>
    cases hF : c.Status.FirewallReady <;>
    simp only [reduceCtorEq, ↓reduceIte, s1, s2r, s2f, s2s, s3, s3p, hN, hI, hF,
      Bool.not_true, Bool.not_false]
  all_goals repeat' split
  all_goals first
    | (left; first | rfl | (simp only [s1, s2r, s2f, s2s, s3, s3p, hN, hI, hF]; done))
    | (exfalso
       rename_i hm _ hne
       split at hm <;> first | exact hne hm | exact hne (by assumption))
    | (right
       refine ⟨?_, ?_, ?_, ?_⟩
       · first | rfl | (simp only []; done)
       · first
           | rfl
           | (simp only [s1, s2r, s2f, s2s, s3, s3p, hN, hI, hF]; done)
           | (simp only [s1, s2r, s2f, s2s, s3, s3p, hN, hI, hF]
              exact allocateControlPlaneIP_returned env _ (by assumption))
       · first
           | rfl
           | (simp only [s1, s2r, s2f, s2s, s3, s3p, hN, hI, hF]; done)
       · first
           | (left; simp [s2s, s3p, hN]; done)
           | (left
              have h := createFirewall_returned env _ (by assumption)
              simpa [s2s, s3p] using h)
           | (obtain ⟨resp, net, hr, hn, hid⟩ := allocateNetwork_returned env _ (by assumption)
              cases hnid : net.ID with
              | none => right; exact ⟨trivial, trivial, resp, net, hr, hn, hnid⟩
              | some v => left; simp [s2s, s3p, hid, hnid]))

theorem reconcileDelete_spec (env : Env) (cl : CapiCluster) (c : MetalStackCluster) :
    (reconcileDelete env cl c).obj.Spec = c.Spec := by
  unfold reconcileDelete countMachines deleteMachines deleteFirewall
  cases hL : env.List <;> cases hD : env.DeleteAllOf <;>
    cases hP : env.ParsedProviderID c.Spec.Firewall <;> cases hM : env.MachineDelete <;>
    simp only [] <;> repeat' split
  all_goals rfl

/-- An invariant of the record is kept by `reconcile` when every step keeps
it, where `firewallReady` is latched only on a record that `createFirewall` has
just returned from without error. -/
theorem reconcile_obj_invariant_guarded (env : Env) (c : MetalStackCluster)
    (I : MetalStackCluster → Prop)
    (h0 : I { c with Finalizers := AddFinalizer c.Finalizers MetalStackClusterFinalizer })
    (hNA : ∀ x, I x → x.Spec.PrivateNetworkID = none → I (allocateNetwork env x).obj)
    (hIP : ∀ x, I x → I (allocateControlPlaneIP env x).obj)
    (hFW : ∀ x, I x → I (createFirewall env x).obj)
    (hFR : ∀ x, I x → (createFirewall env x).out = .returned none →
      I { (createFirewall env x).obj with
          Status := { (createFirewall env x).obj.Status with FirewallReady := true } })
    (hR : ∀ x, I x → I { x with Status := { x.Status with Ready := true } }) :
    I (reconcile env c).obj := by
  unfold reconcile
  simp only []
  repeat' split
  all_goals
    repeat (first
      | exact h0
      | (apply hR)
      | (apply hFR _ _ (by assumption))
      | (apply hFW)
      | (apply hIP)
      | (apply hNA _ _ (by assumption)))

/-- The forward path keeps: `firewallReady` only with `privateNetworkID` set. -/
theorem reconcile_network_before_firewall (env : Env) (c : MetalStackCluster)
    (hinv : c.Status.FirewallReady = true → c.Spec.PrivateNetworkID ≠ none) :
    (reconcile env c).obj.Status.FirewallReady = true →
      (reconcile env c).obj.Spec.PrivateNetworkID ≠ none := by
  apply reconcile_obj_invariant_guarded env c
    (fun x => x.Status.FirewallReady = true → x.Spec.PrivateNetworkID ≠ none)
  · exact hinv
  · intro x hx hnone hfw
    rw [allocateNetwork_status] at hfw
    exact absurd hnone (hx hfw)
  · intro x hx hfw
    rw [(allocateControlPlaneIP_status env x).2.1] at hfw
    rw [allocateControlPlaneIP_spec]
    exact hx hfw
  · intro x hx hfw
    rw [createFirewall_status] at hfw
    rw [createFirewall_privateNetworkID]
    exact hx hfw
  · intro x _ hout _
    have hset := createFirewall_returned env x hout
    have hkeep := createFirewall_privateNetworkID env x
    intro hnone
    exact hset (hkeep ▸ hnone)
  · intro x hx hfw
    exact hx hfw

/-- The body of `Reconcile` keeps: `firewallReady` only with `privateNetworkID`
set. -/
theorem reconcileBody_network_before_firewall (env : Env) (c : MetalStackCluster)
    (hinv : c.Status.FirewallReady = true → c.Spec.PrivateNetworkID ≠ none) :
    (reconcileBody env c).obj.Status.FirewallReady = true →
      (reconcileBody env c).obj.Spec.PrivateNetworkID ≠ none := by
  have hrec := reconcile_network_before_firewall env c hinv
  have hst := reconcileDelete_status env
  have hsp := reconcileDelete_spec env
  unfold reconcileBody
  simp only []
  repeat' split
  all_goals first
    | exact hinv
    | exact hrec
    | (intro hfw
       rw [hst] at hfw
       rw [hsp]
       exact hinv hfw)

/-- On every reachable record `firewallReady` is true only with
`privateNetworkID` set. -/
theorem reachable_network_before_firewall (c : MetalStackCluster) (h : Reachable c) :
    c.Status.FirewallReady = true → c.Spec.PrivateNetworkID ≠ none := by
  induction h with
  | created c hzero =>
    intro hfw
    rw [hzero] at hfw
    cases hfw
  | afterReconcile env c _ ih => exact reconcile_network_before_firewall env c ih
  | afterReconcileDelete env cl c _ ih =>
    intro hfw
    rw [reconcileDelete_status] at hfw
    rw [reconcileDelete_spec]
    exact ih hfw
  | afterReconcileRun env c _ ih =>
    have hbody := reconcileBody_network_before_firewall env c ih
    unfold Reconcile
    simp only []
    repeat' split
    all_goals first
      | exact ih
      | exact hbody
      | (intro hfw; cases hfw)

/-- The hypothesis that the record is reachable is needed: a record with
`firewallReady` true and no `privateNetworkID` is not reachable, and on it a
NetworkAllocate answer without network ID lets `reconcile` latch `ready` with
`privateNetworkID` still unset. -/
theorem unreachable_record_latches_without_network :
    ¬ Reachable exFlagsWithoutNetwork ∧
      exFlagsWithoutNetwork.Status.Ready = false ∧
      (reconcile exEnvNoNetworkID exFlagsWithoutNetwork).obj.Status.Ready = true ∧
      (reconcile exEnvNoNetworkID exFlagsWithoutNetwork).obj.Spec.PrivateNetworkID = none :=
  ⟨fun h => reachable_network_before_firewall exFlagsWithoutNetwork h rfl rfl,
    by decide, by decide, by decide⟩

/-- C12: on every reachable cluster record and for every outcome of the
external calls, whenever `reconcile` leaves `status.ready` true on a record
where it was false, then in the resulting record `privateNetworkID` is set,
`controlPlaneIPAllocated` is true and `firewallReady` is true, and the
directive returned is the empty one (no requeue) without error; and whenever
`reconcile` returns a directive that requests a requeue, `status.ready` is as
it was. -/
theorem ready_latched_after_network_ip_firewall (env : Env) (c : MetalStackCluster)
    (hreach : Reachable c) :
    (c.Status.Ready = false → (reconcile env c).obj.Status.Ready = true →
        (reconcile env c).obj.Spec.PrivateNetworkID ≠ none ∧
          (reconcile env c).obj.Status.ControlPlaneIPAllocated = true ∧
          (reconcile env c).obj.Status.FirewallReady = true ∧
          (reconcile env c).out = .returned ({}, none)) ∧
      (∀ res err, (reconcile env c).out = .returned (res, err) →
        (res.Requeue = true ∨ 0 < res.RequeueAfter) →
        (reconcile env c).obj.Status.Ready = c.Status.Ready) := by
  have hinv := reachable_network_before_firewall c hreach
  constructor
  · intro hbefore hafter
    rcases reconcile_ready_cases env c with h | h
    · rw [h, hbefore] at hafter
      cases hafter
    · refine ⟨?_, h.2.1, h.2.2.1, h.1⟩
      rcases h.2.2.2 with hset | hunset
      · exact hset
      · exact absurd hunset.1 (hinv hunset.2.1)
  · intro res err hout hreq
    rcases reconcile_ready_cases env c with h | h
    · exact h
    · rw [h.1] at hout
      cases hout
      rcases hreq with hr | hr
      · cases hr
      · exact absurd hr (by decide)

/-- C12, witness: the freshly created record is reachable; with every call
succeeding `ready` is latched with the network `net-1` set and both step flags
true; when IPAllocate fails the instant requeue is returned and `ready` stays
false. -/
theorem ready_latched_after_network_ip_firewall_witness :
    Reachable exCluster ∧ exCluster.Status.Ready = false ∧
      (reconcile exEnv exCluster).obj.Status.Ready = true ∧
      (reconcile exEnv exCluster).obj.Spec.PrivateNetworkID ≠ none ∧
      (reconcile exEnv exCluster).obj.Status.ControlPlaneIPAllocated = true ∧
      (reconcile exEnv exCluster).obj.Status.FirewallReady = true ∧
      (reconcile exEnv exCluster).out = .returned ({}, none) ∧
      (reconcile exEnvIPAllocateFails exCluster).out
        = .returned ({ Requeue := true }, none) ∧
      (reconcile exEnvIPAllocateFails exCluster).obj.Status.Ready = false :=
  have hr : Reachable exCluster := Reachable.created exCluster rfl
  have h := (ready_latched_after_network_ip_firewall exEnv exCluster hr).1 rfl (by decide)
  have hq := (ready_latched_after_network_ip_firewall exEnvIPAllocateFails exCluster hr).2
    { Requeue := true } none (by decide) (Or.inl rfl)
  ⟨hr, rfl, by decide, h.1, h.2.1, h.2.2.1, h.2.2.2, by decide, hq⟩

end ClusterCtl

end Metalstack
